import Mathlib

/-!
Verification of the MQTT v5 packet handler of the robustmq broker
(`src/mqtt-broker/src/handler/mqtt5.rs`) against its specification.

The handler methods of `Mqtt5Service` are embedded as pure Lean functions:
the concurrent caches the handler mutates (metadata cache, idempotency
table, heartbeat cache, subscribe cache, retained store, message log,
ack-waiter registry) become components of an explicit `BrokerState`
record, and each handler method becomes a function from a state and an
inbound packet to a reply packet and a new state.  External collaborators
that can fail (authentication, session build, topic resolution, the two
storage facades, retained replay, the ack channel send) are passed in as
result parameters, so every branch of the source is reachable in the
model.  Collaborator code that is not part of the handler file is
modelled from the specification; each such definition carries a doc
comment saying so.
-/

set_option autoImplicit false

namespace RobustMQ

/-- QoS levels of MQTT, mirroring `protocol::mqtt::QoS`. -/
inductive QoS where
  | AtMostOnce
  | AtLeastOnce
  | ExactlyOnce
  deriving DecidableEq, Repr

/-- Numeric value of a QoS level (0, 1 or 2). -/
def qos_to_nat : QoS → Nat
  | QoS.AtMostOnce => 0
  | QoS.AtLeastOnce => 1
  | QoS.ExactlyOnce => 2

/-- Modelled from the spec: `min_qos` (in `subscribe::sub_common`, not under
src) returns the smaller of the cluster maximum QoS and the requested QoS. -/
def min_qos (a b : QoS) : QoS :=
  if qos_to_nat a ≤ qos_to_nat b then a else b

/-- Protocol version tag, mirroring `crate::server::MQTTProtocol`. -/
inductive MQTTProtocol where
  | MQTT4
  | MQTT5
  deriving DecidableEq, Repr

/-- Cluster configuration as far as the handler reads it: `max_qos` and the
maximum packet size.  Mirrors `MQTTCluster`. -/
structure MQTTCluster where
  max_qos : QoS
  max_packet_size : Nat
  deriving DecidableEq, Repr

/-- A live connection record, mirroring the `Connection` struct stored in
the metadata cache under its `connect_id`. -/
structure Connection where
  connect_id : Nat
  client_id : String
  keep_alive : Nat
  max_packet_size : Nat
  deriving DecidableEq, Repr

/-- A session record keyed by client id, mirroring `MQTTSession`. -/
structure Session where
  client_id : String
  session_expiry : Nat
  deriving DecidableEq, Repr

/-- Heartbeat record, mirroring `ConnectionLiveTime` in the handler. -/
structure ConnectionLiveTime where
  protobol : MQTTProtocol
  keep_live : Nat
  heartbeat : Nat
  deriving DecidableEq, Repr

/-- Topic record: name plus the stable storage key `topic_id`. -/
structure Topic where
  topic_name : String
  topic_id : String
  deriving DecidableEq, Repr

/-- Inbound PUBLISH packet, mirroring `protocol::mqtt::Publish`.  The
payload is modelled as its list of bytes. -/
structure Publish where
  dup : Bool
  qos : QoS
  pkid : Nat
  retain : Bool
  topic : String
  payload : List Nat
  deriving DecidableEq, Repr

/-- Publish properties as far as the handler forwards them. -/
structure PublishProperties where
  topic_alias : Option Nat
  deriving DecidableEq, Repr

/-- One subscription filter of a SUBSCRIBE packet. -/
structure Filter where
  path : String
  qos : QoS
  deriving DecidableEq, Repr

/-- Inbound SUBSCRIBE packet, mirroring `protocol::mqtt::Subscribe`. -/
structure Subscribe where
  packet_identifier : Nat
  filters : List Filter
  deriving DecidableEq, Repr

/-- Subscribe properties as far as the handler forwards them. -/
structure SubscribeProperties where
  subscription_identifier : Option Nat
  deriving DecidableEq, Repr

/-- Inbound CONNECT packet fields the handler reads. -/
structure Connect where
  client_id : String
  clean_start : Bool
  keep_alive : Nat
  deriving DecidableEq, Repr

/-- Inbound PUBACK packet (the peer acknowledging a QoS 1 delivery). -/
structure PubAckPacket where
  pkid : Nat
  deriving DecidableEq, Repr

/-- Inbound PUBREC packet. -/
structure PubRecPacket where
  pkid : Nat
  deriving DecidableEq, Repr

/-- Inbound PUBCOMP packet. -/
structure PubCompPacket where
  pkid : Nat
  deriving DecidableEq, Repr

/-- Inbound PUBREL packet. -/
structure PubRelPacket where
  pkid : Nat
  deriving DecidableEq, Repr

/-- CONNACK reason codes used by the handler. -/
inductive ConnectReturnCode where
  | Success
  | NotAuthorized
  | ServiceUnavailable
  | BadClientId
  deriving DecidableEq, Repr

/-- PUBACK reason codes used by the handler. -/
inductive PubAckReason where
  | Success
  | UnspecifiedError
  | PayloadFormatInvalid
  | PacketIdentifierInUse
  deriving DecidableEq, Repr

/-- DISCONNECT reason codes used by the handler. -/
inductive DisconnectReasonCode where
  | NormalDisconnection
  | UnspecifiedError
  deriving DecidableEq, Repr

/-- PUBREL reason codes used by the handler. -/
inductive PubRelReason where
  | Success
  deriving DecidableEq, Repr

/-- Per-filter SUBACK reason codes used by the handler. -/
inductive SubscribeReasonCode where
  | QoS0
  | QoS1
  | QoS2
  | TopicFilterInvalid
  | PkidInUse
  deriving DecidableEq, Repr

/-- Kind tag of an acknowledgement forwarded to an ack waiter. -/
inductive AckPackageType where
  | PubAck
  | PubRec
  | PubComp
  deriving DecidableEq, Repr

/-- Payload forwarded into an ack-waiter channel. -/
structure AckPackageData where
  ack_type : AckPackageType
  pkid : Nat
  deriving DecidableEq, Repr

/-- Reply packets the handler can emit, one constructor per builder of the
ack builder (`handler::packet`, not under src; constructors modelled from
the spec section on the Ack Builder). -/
inductive MQTTPacket where
  | ConnAckFail (code : ConnectReturnCode) (msg : Option String)
  | ConnAckSuccess (client_id : String) (new_client_id : Bool)
      (session_expiry : Nat) (session_present : Bool)
  | PubAck (pkid : Nat) (reason : Option PubAckReason)
      (user_properties : List (String × String))
  | PubAckFail (reason : PubAckReason) (msg : Option String)
  | PubRec (pkid : Nat) (user_properties : List (String × String))
  | PubRel (pkid : Nat) (reason : PubRelReason)
  | PubComp (pkid : Nat) (success : Bool)
  | SubAck (pkid : Nat) (codes : List SubscribeReasonCode)
  | UnsubAck (pkid : Nat)
  | PingResp
  | Disconnect (reason : DisconnectReasonCode) (msg : Option String)
  deriving DecidableEq, Repr

/-- Modelled from the spec: `packet_connect_fail` builds a failing CONNACK. -/
def packet_connect_fail (code : ConnectReturnCode) (msg : Option String) : MQTTPacket :=
  MQTTPacket.ConnAckFail code msg

/-- Modelled from the spec: `packet_connect_success` builds the successful
CONNACK with `session_present = !new_session`. -/
def packet_connect_success (client_id : String) (new_client_id : Bool)
    (session_expiry : Nat) (new_session : Bool) : MQTTPacket :=
  MQTTPacket.ConnAckSuccess client_id new_client_id session_expiry (!new_session)

/-- Modelled from the spec: `pub_ack` builds a PUBACK reply. -/
def pub_ack (pkid : Nat) (reason : Option PubAckReason)
    (user_properties : List (String × String)) : MQTTPacket :=
  MQTTPacket.PubAck pkid reason user_properties

/-- Modelled from the spec: `pub_ack_fail` builds a failing PUBACK reply. -/
def pub_ack_fail (reason : PubAckReason) (msg : Option String) : MQTTPacket :=
  MQTTPacket.PubAckFail reason msg

/-- Modelled from the spec: `pub_rec` builds a PUBREC reply. -/
def pub_rec (pkid : Nat) (user_properties : List (String × String)) : MQTTPacket :=
  MQTTPacket.PubRec pkid user_properties

/-- Modelled from the spec: `pub_rel` builds a PUBREL reply. -/
def pub_rel (pkid : Nat) (reason : PubRelReason) : MQTTPacket :=
  MQTTPacket.PubRel pkid reason

/-- Modelled from the spec: `publish_comp_success` builds a success PUBCOMP. -/
def publish_comp_success (pkid : Nat) : MQTTPacket :=
  MQTTPacket.PubComp pkid true

/-- Modelled from the spec: `publish_comp_fail` builds a failure PUBCOMP. -/
def publish_comp_fail (pkid : Nat) : MQTTPacket :=
  MQTTPacket.PubComp pkid false

/-- Modelled from the spec: `sub_ack` builds a SUBACK with per-filter codes. -/
def sub_ack (pkid : Nat) (codes : List SubscribeReasonCode) : MQTTPacket :=
  MQTTPacket.SubAck pkid codes

/-- Modelled from the spec: `distinct` builds a DISCONNECT reply. -/
def distinct (reason : DisconnectReasonCode) (msg : Option String) : MQTTPacket :=
  MQTTPacket.Disconnect reason msg

/-- Modelled from the spec: display of `RobustMQError::NotFoundConnectionInCache`. -/
def not_found_connection_msg (connect_id : Nat) : String :=
  "not found connection in cache " ++ toString connect_id

/-- Modelled from the spec: display of `RobustMQError::PacketLenthError`. -/
def packet_length_error_msg (len : Nat) : String :=
  "packet length error " ++ toString len

/-- Lookup in an association list, the model of one concurrent map. -/
def lookupKey {α β : Type} [DecidableEq α] (k : α) : List (α × β) → Option β
  | [] => none
  | (a, b) :: rest => if a = k then some b else lookupKey k rest

/-- Remove a key from an association list. -/
def removeKey {α β : Type} [DecidableEq α] (k : α) : List (α × β) → List (α × β)
  | [] => []
  | (a, b) :: rest => if a = k then removeKey k rest else (a, b) :: removeKey k rest

/-- Upsert into an association list. -/
def insertKey {α β : Type} [DecidableEq α] (k : α) (v : β) (l : List (α × β)) :
    List (α × β) :=
  (k, v) :: removeKey k l

theorem lookupKey_insertKey_self {α β : Type} [DecidableEq α] (k : α) (v : β)
    (l : List (α × β)) : lookupKey k (insertKey k v l) = some v := by
  simp [insertKey, lookupKey]

theorem lookupKey_removeKey_ne {α β : Type} [DecidableEq α] (k j : α)
    (l : List (α × β)) (h : j ≠ k) :
    lookupKey k (removeKey j l) = lookupKey k l := by
  induction l with
  | nil => rfl
  | cons hd tl ih =>
    obtain ⟨a, b⟩ := hd
    by_cases ha : a = j
    · have hak : ¬a = k := fun hk => h (ha.symm.trans hk)
      have h1 : removeKey j ((a, b) :: tl) = removeKey j tl := by
        simp [removeKey, ha]
      rw [h1, ih, lookupKey, if_neg hak]
    · simp only [removeKey, if_neg ha, lookupKey]
      by_cases hak : a = k
      · simp [hak]
      · simp [hak, ih]

theorem lookupKey_insertKey_ne {α β : Type} [DecidableEq α] (k j : α) (v : β)
    (l : List (α × β)) (h : j ≠ k) :
    lookupKey k (insertKey j v l) = lookupKey k l := by
  simp only [insertKey, lookupKey, if_neg h]
  exact lookupKey_removeKey_ne k j l h

/-- Membership in an idempotency set of `(client_id, pkid)` pairs. -/
def pkid_set_mem (s : List (String × Nat)) (client_id : String) (pkid : Nat) : Bool :=
  decide ((client_id, pkid) ∈ s)

/-- Idempotent insert into an idempotency set. -/
def pkid_set_insert (s : List (String × Nat)) (client_id : String) (pkid : Nat) :
    List (String × Nat) :=
  if (client_id, pkid) ∈ s then s else (client_id, pkid) :: s

/-- Idempotent delete from an idempotency set. -/
def pkid_set_remove (s : List (String × Nat)) (client_id : String) (pkid : Nat) :
    List (String × Nat) :=
  s.filter (fun e => decide (e ≠ (client_id, pkid)))

/-- Modelled from the spec: `QosMemory` (crate `qos::memory`, not under src)
holds the publish QoS 2 idempotency set and the subscribe idempotency set. -/
structure QosMemory where
  qos_pkid_data : List (String × Nat)
  sub_pkid_data : List (String × Nat)
  deriving DecidableEq, Repr

/-- Modelled from the spec: presence query on the publish QoS 2 set; the
handler calls `.is_none()` on the result. -/
def QosMemory.get_qos_pkid_data (m : QosMemory) (client_id : String) (pkid : Nat) :
    Option Unit :=
  if (client_id, pkid) ∈ m.qos_pkid_data then some () else none

/-- Modelled from the spec: idempotent insert into the publish QoS 2 set. -/
def QosMemory.save_qos_pkid_data (m : QosMemory) (client_id : String) (pkid : Nat) :
    QosMemory :=
  { m with qos_pkid_data := pkid_set_insert m.qos_pkid_data client_id pkid }

/-- Modelled from the spec: idempotent delete from the publish QoS 2 set. -/
def QosMemory.delete_qos_pkid_data (m : QosMemory) (client_id : String) (pkid : Nat) :
    QosMemory :=
  { m with qos_pkid_data := pkid_set_remove m.qos_pkid_data client_id pkid }

/-- Modelled from the spec: presence query on the subscribe set. -/
def QosMemory.get_sub_pkid_data (m : QosMemory) (client_id : String) (pkid : Nat) :
    Option Unit :=
  if (client_id, pkid) ∈ m.sub_pkid_data then some () else none

/-- Modelled from the spec: idempotent insert into the subscribe set. -/
def QosMemory.save_sub_pkid_data (m : QosMemory) (client_id : String) (pkid : Nat) :
    QosMemory :=
  { m with sub_pkid_data := pkid_set_insert m.sub_pkid_data client_id pkid }

/-- Modelled from the spec: idempotent delete from the subscribe set. -/
def QosMemory.delete_sub_pkid_data (m : QosMemory) (client_id : String) (pkid : Nat) :
    QosMemory :=
  { m with sub_pkid_data := pkid_set_remove m.sub_pkid_data client_id pkid }

/-- Split a character list into topic levels at each slash. -/
def split_levels : List Char → List (List Char)
  | [] => [[]]
  | c :: rest =>
    match split_levels rest with
    | [] => [[]]
    | l :: ls => if c = '/' then [] :: l :: ls else (c :: l) :: ls

/-- Check the topic-filter grammar on the list of levels: a level holding a
plus sign must be exactly that sign, and a level holding a hash sign must be
exactly that sign and must be the final level. -/
def levels_ok : List (List Char) → Bool
  | [] => true
  | [l] => (!l.contains '+' || l == ['+']) && (!l.contains '#' || l == ['#'])
  | l :: rest => (!l.contains '+' || l == ['+']) && !l.contains '#' && levels_ok rest

/-- Modelled from the spec: `sub_path_validator` (in `subscribe::sub_common`,
not under src) accepts exactly the MQTT v5 topic-filter grammar: non-empty,
no null bytes, levels separated by slashes, a plus sign occupying a whole
level, a hash sign only as the whole final level. -/
def sub_path_validator (path : String) : Bool :=
  !path.data.isEmpty
    && !path.data.contains (Char.ofNat 0)
    && levels_ok (split_levels path.data)

/-- A retained-message record, mirroring `MQTTMessage` from the metadata
structs. -/
structure MQTTMessage where
  client_id : String
  qos : QoS
  retain : Bool
  topic : String
  payload : List Nat
  deriving DecidableEq, Repr

/-- Modelled from the spec: `MQTTMessage::build_message` packages the
publish into a retained-message record. -/
def MQTTMessage.build_message (client_id : String) (publish : Publish)
    (_publish_properties : Option PublishProperties) : MQTTMessage :=
  { client_id := client_id
    qos := publish.qos
    retain := publish.retain
    topic := publish.topic
    payload := publish.payload }

/-- A record appended to the per-topic message log. -/
structure StorageRecord where
  client_id : String
  payload : List Nat
  deriving DecidableEq, Repr

/-- Modelled from the spec: `MQTTMessage::build_record` builds a log record
exactly when the payload is non-empty. -/
def MQTTMessage.build_record (client_id : String) (publish : Publish)
    (_publish_properties : Option PublishProperties) : Option StorageRecord :=
  if publish.payload.length = 0 then none
  else some { client_id := client_id, payload := publish.payload }

/-- The whole mutable state the handler touches: each collaborator cache is
one component.  The subscription caches store the raw SUBSCRIBE packets with
their properties under the client id. -/
structure BrokerState where
  cluster : MQTTCluster
  session_info : List (String × Session)
  connection_info : List (Nat × Connection)
  heartbeat_data : List (Nat × ConnectionLiveTime)
  qos_memory : QosMemory
  client_subscribe : List (String × List (Subscribe × Option SubscribeProperties))
  subscribe_cache : List (String × List (Subscribe × Option SubscribeProperties))
  retain_messages : List (String × MQTTMessage)
  message_log : List (String × List StorageRecord)
  ack_waiters : List (String × Nat)
  deriving DecidableEq, Repr

/-- Modelled from the spec: `MetadataCacheManager::add_session` upserts the
session under the client id. -/
def add_session (st : BrokerState) (client_id : String) (session : Session) :
    BrokerState :=
  { st with session_info := insertKey client_id session st.session_info }

/-- Modelled from the spec: `MetadataCacheManager::add_connection` upserts
the connection under the connect id; the map is keyed by `connect_id` only. -/
def add_connection (st : BrokerState) (connect_id : Nat) (connection : Connection) :
    BrokerState :=
  { st with connection_info := insertKey connect_id connection st.connection_info }

/-- Modelled from the spec: `MetadataCacheManager::remove_connection` removes
the connection entry keyed by the connect id; it is idempotent. -/
def remove_connection (st : BrokerState) (connect_id : Nat) (_client_id : String) :
    BrokerState :=
  { st with connection_info := removeKey connect_id st.connection_info }

/-- Modelled from the spec: `HeartbeatCache::report_hearbeat` upserts the
heartbeat record of the connection (sharding by connect id is a
representation detail with no observable effect on a single map). -/
def report_hearbeat (st : BrokerState) (connect_id : Nat)
    (live_time : ConnectionLiveTime) : BrokerState :=
  { st with heartbeat_data := insertKey connect_id live_time st.heartbeat_data }

/-- Modelled from the spec: `HeartbeatCache::remove_connection` deletes the
heartbeat record of the connection. -/
def heartbeat_remove_connection (st : BrokerState) (connect_id : Nat) : BrokerState :=
  { st with heartbeat_data := removeKey connect_id st.heartbeat_data }

/-- Modelled from the spec: `MetadataCacheManager::add_client_subscribe`
records the subscription under the client id index of the metadata cache. -/
def add_client_subscribe (st : BrokerState) (client_id : String)
    (subscribe : Subscribe) (props : Option SubscribeProperties) : BrokerState :=
  let updated := ((lookupKey client_id st.client_subscribe).getD []) ++ [(subscribe, props)]
  { st with client_subscribe := insertKey client_id updated st.client_subscribe }

/-- Modelled from the spec: `SubscribeCache::add_subscribe` records the
subscription in the subscribe cache under the client id. -/
def subscribe_cache_add (st : BrokerState) (client_id : String)
    (subscribe : Subscribe) (props : Option SubscribeProperties) : BrokerState :=
  let updated := ((lookupKey client_id st.subscribe_cache).getD []) ++ [(subscribe, props)]
  { st with subscribe_cache := insertKey client_id updated st.subscribe_cache }

/-- Modelled from the spec: `SubscribeCache::remove_client` drops every
subscription of the client from the subscribe cache. -/
def subscribe_cache_remove_client (st : BrokerState) (client_id : String) :
    BrokerState :=
  { st with subscribe_cache := removeKey client_id st.subscribe_cache }

/-- Modelled from the spec: `TopicStorage::save_retain_message` stores the
message as the latest retained message of the topic; the `retain_save_ok`
parameter injects the storage error the facade can raise, in which case the
store is unchanged. -/
def save_retain_message (st : BrokerState) (topic_id : String)
    (message : MQTTMessage) (retain_save_ok : Bool) : Except String BrokerState :=
  if retain_save_ok then
    Except.ok { st with retain_messages := insertKey topic_id message st.retain_messages }
  else Except.error "save retain message storage error"

/-- Modelled from the spec: `MessageStorage::append_topic_message` appends
the record to the per-topic log and returns its offset; the `append_ok`
parameter injects the storage error, in which case the log is unchanged. -/
def append_topic_message (st : BrokerState) (topic_id : String)
    (record : StorageRecord) (append_ok : Bool) : Except String (Nat × BrokerState) :=
  if append_ok then
    let existing := (lookupKey topic_id st.message_log).getD []
    Except.ok (existing.length,
      { st with message_log := insertKey topic_id (existing ++ [record]) st.message_log })
  else Except.error "append topic message storage error"

/-- Modelled from the spec: `AckManager::get` is a non-consuming peek for a
registered ack waiter of `(client_id, pkid)`. -/
def ack_manager_get (st : BrokerState) (client_id : String) (pkid : Nat) : Bool :=
  decide ((client_id, pkid) ∈ st.ack_waiters)

/-- Modelled from the spec: `get_client_id` keeps a non-empty client id and
otherwise mints the server-assigned identifier `fresh`, flagging it new. -/
def get_client_id (client_id : String) (fresh : String) : String × Bool :=
  if client_id = "" then (fresh, true) else (client_id, false)

/-- Modelled from the spec: `create_connection` builds the Connection record
from the CONNECT parameters and the cluster limits. -/
def create_connection (connect_id : Nat) (client_id : String)
    (cluster : MQTTCluster) (connnect : Connect) : Connection :=
  { connect_id := connect_id
    client_id := client_id
    keep_alive := connnect.keep_alive
    max_packet_size := cluster.max_packet_size }

/-- Embedding of `Mqtt5Service::connect`.  The external calls become result
parameters: `auth_res` is the outcome of `authentication_login`,
`fresh_client_id` the identifier `get_client_id` would mint for an empty
client id, `session_res` the outcome of `build_session` (the session and
the `new_session` flag), and `now` the current epoch second. -/
def Mqtt5Service.connect (st : BrokerState) (connect_id : Nat) (connnect : Connect)
    (auth_res : Except String Bool) (fresh_client_id : String)
    (session_res : Except String (Session × Bool)) (now : Nat) :
    MQTTPacket × BrokerState :=
  match auth_res with
  | Except.error e => (packet_connect_fail ConnectReturnCode.ServiceUnavailable (some e), st)
  | Except.ok flag =>
    if !flag then (packet_connect_fail ConnectReturnCode.NotAuthorized none, st)
    else
      let cluster := st.cluster
      let (client_id, new_client_id) := get_client_id connnect.client_id fresh_client_id
      match session_res with
      | Except.error e =>
        (packet_connect_fail ConnectReturnCode.ServiceUnavailable (some e), st)
      | Except.ok (session, new_session) =>
        let st1 := add_session st client_id session
        let connection := create_connection connect_id client_id cluster connnect
        let st2 := add_connection st1 connect_id connection
        let live_time : ConnectionLiveTime :=
          { protobol := MQTTProtocol.MQTT5
            keep_live := connection.keep_alive
            heartbeat := now }
        let st3 := report_hearbeat st2 connect_id live_time
        (packet_connect_success client_id new_client_id session.session_expiry new_session,
          st3)

/-- Embedding of the retain block of `Mqtt5Service::publish`: when the
packet carries the retain flag, the built message is saved as the retained
message of the topic; a storage error aborts with that error. -/
def publish_retain_step (st : BrokerState) (publish : Publish)
    (publish_properties : Option PublishProperties) (topic : Topic)
    (client_id : String) (retain_save_ok : Bool) : Except String BrokerState :=
  if publish.retain then
    save_retain_message st topic.topic_id
      (MQTTMessage.build_message client_id publish publish_properties) retain_save_ok
  else Except.ok st

/-- Embedding of the append block of `Mqtt5Service::publish`: when
`build_record` yields a record it is appended to the topic log and the
returned offset is rendered as a string; otherwise the offset string is
"-1". -/
def publish_append_step (st : BrokerState) (publish : Publish)
    (publish_properties : Option PublishProperties) (topic : Topic)
    (client_id : String) (append_ok : Bool) : Except String (String × BrokerState) :=
  match MQTTMessage.build_record client_id publish publish_properties with
  | some record =>
    match append_topic_message st topic.topic_id record append_ok with
    | Except.ok (offset, st1) => Except.ok (toString offset, st1)
    | Except.error e => Except.error e
  | none => Except.ok ("-1", st)

/-- Embedding of `Mqtt5Service::publish`.  `topic_name_res` is the outcome
of `publish_get_topic_name`, `topic_info_res` the outcome of
`get_topic_info`; `retain_save_ok` and `append_ok` inject storage errors. -/
def Mqtt5Service.publish (st : BrokerState) (connect_id : Nat) (publish : Publish)
    (publish_properties : Option PublishProperties)
    (topic_name_res : Except String String) (topic_info_res : Except String Topic)
    (retain_save_ok : Bool) (append_ok : Bool) :
    Option MQTTPacket × BrokerState :=
  match topic_name_res with
  | Except.error e =>
    (some (pub_ack_fail PubAckReason.UnspecifiedError (some e)), st)
  | Except.ok _topic_name =>
    match topic_info_res with
    | Except.error e =>
      (some (pub_ack_fail PubAckReason.UnspecifiedError (some e)), st)
    | Except.ok topic =>
      match lookupKey connect_id st.connection_info with
      | none =>
        (some (distinct DisconnectReasonCode.UnspecifiedError
          (some (not_found_connection_msg connect_id))), st)
      | some connection =>
        if publish.payload.length = 0
            ∨ publish.payload.length > connection.max_packet_size then
          (some (pub_ack_fail PubAckReason.PayloadFormatInvalid
            (some (packet_length_error_msg publish.payload.length))), st)
        else
          match lookupKey connect_id st.connection_info with
          | none =>
            (some (distinct DisconnectReasonCode.UnspecifiedError
              (some (not_found_connection_msg connect_id))), st)
          | some conn =>
            let client_id := conn.client_id
            if !(st.qos_memory.get_qos_pkid_data client_id publish.pkid).isNone then
              (some (pub_ack_fail PubAckReason.PacketIdentifierInUse none), st)
            else
              match publish_retain_step st publish publish_properties topic client_id
                  retain_save_ok with
              | Except.error e =>
                (some (distinct DisconnectReasonCode.UnspecifiedError (some e)), st)
              | Except.ok st1 =>
                match publish_append_step st1 publish publish_properties topic client_id
                    append_ok with
                | Except.error e =>
                  (some (distinct DisconnectReasonCode.UnspecifiedError (some e)), st1)
                | Except.ok (offset, st2) =>
                  let pkid := publish.pkid
                  let user_properties : List (String × String) := [("offset", offset)]
                  match publish.qos with
                  | QoS.AtMostOnce => (none, st2)
                  | QoS.AtLeastOnce =>
                    (some (pub_ack pkid none user_properties), st2)
                  | QoS.ExactlyOnce =>
                    let st3 := { st2 with qos_memory :=
                      st2.qos_memory.save_qos_pkid_data connection.client_id pkid }
                    (some (pub_rec pkid user_properties), st3)

/-- Embedding of `Mqtt5Service::publish_ack`.  The second component lists
the acknowledgement data actually delivered into a waiter channel;
`send_ok` injects the channel send error, which the source only logs. -/
def Mqtt5Service.publish_ack (st : BrokerState) (connect_id : Nat)
    (packet : PubAckPacket) (send_ok : Bool) :
    Option MQTTPacket × List AckPackageData :=
  match lookupKey connect_id st.connection_info with
  | some conn =>
    if ack_manager_get st conn.client_id packet.pkid then
      if send_ok then
        (none, [{ ack_type := AckPackageType.PubAck, pkid := packet.pkid }])
      else (none, [])
    else (none, [])
  | none => (none, [])

/-- Embedding of `Mqtt5Service::publish_rec`: with a waiter and a successful
send the reply is nothing; on every other path the source falls through to
replying PUBREL with reason Success. -/
def Mqtt5Service.publish_rec (st : BrokerState) (connect_id : Nat)
    (packet : PubRecPacket) (send_ok : Bool) :
    Option MQTTPacket × List AckPackageData :=
  match lookupKey connect_id st.connection_info with
  | some conn =>
    if ack_manager_get st conn.client_id packet.pkid then
      if send_ok then
        (none, [{ ack_type := AckPackageType.PubRec, pkid := packet.pkid }])
      else (some (pub_rel packet.pkid PubRelReason.Success), [])
    else (some (pub_rel packet.pkid PubRelReason.Success), [])
  | none => (some (pub_rel packet.pkid PubRelReason.Success), [])

/-- Embedding of `Mqtt5Service::publish_comp`: the reply is nothing on every
path; the delivered list is non-empty only with a waiter and a successful
send. -/
def Mqtt5Service.publish_comp (st : BrokerState) (connect_id : Nat)
    (packet : PubCompPacket) (send_ok : Bool) :
    Option MQTTPacket × List AckPackageData :=
  match lookupKey connect_id st.connection_info with
  | some conn =>
    if ack_manager_get st conn.client_id packet.pkid then
      if send_ok then
        (none, [{ ack_type := AckPackageType.PubComp, pkid := packet.pkid }])
      else (none, [])
    else (none, [])
  | none => (none, [])

/-- Embedding of `Mqtt5Service::publish_rel`. -/
def Mqtt5Service.publish_rel (st : BrokerState) (connect_id : Nat)
    (packet : PubRelPacket) : MQTTPacket × BrokerState :=
  match lookupKey connect_id st.connection_info with
  | none =>
    (distinct DisconnectReasonCode.UnspecifiedError
      (some (not_found_connection_msg connect_id)), st)
  | some conn =>
    let client_id := conn.client_id
    if (st.qos_memory.get_qos_pkid_data client_id packet.pkid).isNone then
      (publish_comp_fail packet.pkid, st)
    else
      (publish_comp_success packet.pkid,
        { st with qos_memory := st.qos_memory.delete_qos_pkid_data client_id packet.pkid })

/-- Embedding of the per-filter loop of `Mqtt5Service::subscribe`, building
the reason codes in input order. -/
def subscribe_return_codes (cluster_qos : QoS) : List Filter → List SubscribeReasonCode
  | [] => []
  | filter :: rest =>
    (if !sub_path_validator filter.path then SubscribeReasonCode.TopicFilterInvalid
     else
       match min_qos cluster_qos filter.qos with
       | QoS.AtMostOnce => SubscribeReasonCode.QoS0
       | QoS.AtLeastOnce => SubscribeReasonCode.QoS1
       | QoS.ExactlyOnce => SubscribeReasonCode.QoS2)
      :: subscribe_return_codes cluster_qos rest

/-- The `contain_success` flag of the loop: some filter passed the path
validator. -/
def subscribe_contain_success (filters : List Filter) : Bool :=
  filters.any (fun filter => sub_path_validator filter.path)

/-- Embedding of `Mqtt5Service::subscribe`.  `retain_replay_ok` injects the
outcome of `send_retain_message`. -/
def Mqtt5Service.subscribe (st : BrokerState) (connect_id : Nat)
    (subscribe : Subscribe) (subscribe_properties : Option SubscribeProperties)
    (retain_replay_ok : Bool) : MQTTPacket × BrokerState :=
  match lookupKey connect_id st.connection_info with
  | none =>
    (distinct DisconnectReasonCode.UnspecifiedError
      (some (not_found_connection_msg connect_id)), st)
  | some conn =>
    let client_id := conn.client_id
    if !(st.qos_memory.get_sub_pkid_data client_id subscribe.packet_identifier).isNone then
      (sub_ack subscribe.packet_identifier [SubscribeReasonCode.PkidInUse], st)
    else
      let cluster_qos := st.cluster.max_qos
      let return_codes := subscribe_return_codes cluster_qos subscribe.filters
      let contain_success := subscribe_contain_success subscribe.filters
      if !contain_success then
        (sub_ack subscribe.packet_identifier [SubscribeReasonCode.TopicFilterInvalid], st)
      else
        let st1 := { st with qos_memory :=
          st.qos_memory.save_sub_pkid_data client_id subscribe.packet_identifier }
        let st2 := add_client_subscribe st1 client_id subscribe subscribe_properties
        let st3 := subscribe_cache_add st2 client_id subscribe subscribe_properties
        if retain_replay_ok then
          (sub_ack subscribe.packet_identifier return_codes, st3)
        else
          (distinct DisconnectReasonCode.UnspecifiedError
            (some "send retain message error"), st3)

/-- Embedding of `Mqtt5Service::disconnect`. -/
def Mqtt5Service.disconnect (st : BrokerState) (connect_id : Nat) :
    Option MQTTPacket × BrokerState :=
  match lookupKey connect_id st.connection_info with
  | none => (none, st)
  | some connection =>
    let st1 := remove_connection st connect_id connection.client_id
    let st2 := subscribe_cache_remove_client st1 connection.client_id
    let st3 := heartbeat_remove_connection st2 connect_id
    (some (distinct DisconnectReasonCode.NormalDisconnection none), st3)

/-- An error reply of the publish handler: a failing PUBACK or a DISCONNECT. -/
def is_error_reply : Option MQTTPacket → Bool
  | some (MQTTPacket.PubAckFail _ _) => true
  | some (MQTTPacket.Disconnect _ _) => true
  | _ => false

/-- A SUBACK reply, of any reason-code list. -/
def is_sub_ack : MQTTPacket → Bool
  | MQTTPacket.SubAck _ _ => true
  | _ => false

/-- Shared concrete fixture: cluster with maximum QoS 1. -/
def fxCluster : MQTTCluster := { max_qos := QoS.AtLeastOnce, max_packet_size := 100 }

/-- Shared concrete fixture: the live connection of client "c". -/
def fxConn : Connection :=
  { connect_id := 1, client_id := "c", keep_alive := 60, max_packet_size := 100 }

/-- Shared concrete fixture: a resolved topic. -/
def fxTopic : Topic := { topic_name := "t", topic_id := "tid" }

/-- Shared concrete fixture: an old retained message of the topic. -/
def fxMessage : MQTTMessage :=
  { client_id := "old", qos := QoS.AtLeastOnce, retain := true, topic := "t",
    payload := [1] }

/-- Shared concrete fixture: a stored subscription of client "c". -/
def fxSub : Subscribe :=
  { packet_identifier := 7, filters := [{ path := "a/b", qos := QoS.ExactlyOnce }] }

/-- Shared concrete fixture: a broker state with one live connection for
client "c", one session, one heartbeat, the QoS 2 idempotency entry
`("c", 9)`, one stored subscription and one retained message. -/
def fxState : BrokerState :=
  { cluster := fxCluster
    session_info := [("c", { client_id := "c", session_expiry := 100 })]
    connection_info := [(1, fxConn)]
    heartbeat_data := [(1, ⟨MQTTProtocol.MQTT5, 60, 1000⟩)]
    qos_memory := { qos_pkid_data := [("c", 9)], sub_pkid_data := [] }
    client_subscribe := []
    subscribe_cache := [("c", [(fxSub, none)])]
    retain_messages := [("tid", fxMessage)]
    message_log := []
    ack_waiters := [] }

/-- C4: For every inbound PUBREL with packet identifier pkid: if no
Connection exists for the connect id, the reply is a DISCONNECT packet;
else if `(client_id, pkid)` is not in the QoS idempotency set, the reply is
a failure PUBCOMP and no state is changed; otherwise the entry is deleted
and the reply is a success PUBCOMP. -/
theorem publish_rel_cases (st : BrokerState) (connect_id : Nat)
    (packet : PubRelPacket) :
    (lookupKey connect_id st.connection_info = none →
      Mqtt5Service.publish_rel st connect_id packet
        = (distinct DisconnectReasonCode.UnspecifiedError
            (some (not_found_connection_msg connect_id)), st)) ∧
    (∀ conn, lookupKey connect_id st.connection_info = some conn →
      (st.qos_memory.get_qos_pkid_data conn.client_id packet.pkid = none →
        Mqtt5Service.publish_rel st connect_id packet
          = (publish_comp_fail packet.pkid, st)) ∧
      (st.qos_memory.get_qos_pkid_data conn.client_id packet.pkid ≠ none →
        Mqtt5Service.publish_rel st connect_id packet
          = (publish_comp_success packet.pkid,
             { st with qos_memory :=
                st.qos_memory.delete_qos_pkid_data conn.client_id packet.pkid }))) := by
  refine ⟨fun h => ?_, fun conn h => ⟨fun habs => ?_, fun hpres => ?_⟩⟩
  · simp [Mqtt5Service.publish_rel, h]
  · simp [Mqtt5Service.publish_rel, h, habs]
  · have hfalse : (st.qos_memory.get_qos_pkid_data conn.client_id packet.pkid).isNone
        = false := by
      cases hx : st.qos_memory.get_qos_pkid_data conn.client_id packet.pkid with
      | none => exact absurd hx hpres
      | some v => rfl
    simp [Mqtt5Service.publish_rel, h, hfalse]

/-- Closed witness for `publish_rel_cases`: at the fixture state, PUBREL for
the unseen pkid 42 replies a failure PUBCOMP and leaves the state alone. -/
theorem publish_rel_cases_witness :
    Mqtt5Service.publish_rel fxState 1 { pkid := 42 }
      = (publish_comp_fail 42, fxState) :=
  ((publish_rel_cases fxState 1 { pkid := 42 }).2 fxConn (by decide)).1 (by decide)

/-- C8: For inbound acknowledgement packets with no registered ack waiter
for `(client_id, pkid)`: PUBACK and PUBCOMP produce no outbound packet,
while PUBREC is answered with PUBREL carrying reason Success. -/
theorem ack_without_waiter (st : BrokerState) (connect_id : Nat) (pkid : Nat)
    (conn : Connection) (send_ok : Bool)
    (hconn : lookupKey connect_id st.connection_info = some conn)
    (hw : ack_manager_get st conn.client_id pkid = false) :
    Mqtt5Service.publish_ack st connect_id { pkid := pkid } send_ok = (none, []) ∧
    Mqtt5Service.publish_comp st connect_id { pkid := pkid } send_ok = (none, []) ∧
    Mqtt5Service.publish_rec st connect_id { pkid := pkid } send_ok
      = (some (pub_rel pkid PubRelReason.Success), []) := by
  refine ⟨?_, ?_, ?_⟩
  · simp [Mqtt5Service.publish_ack, hconn, hw]
  · simp [Mqtt5Service.publish_comp, hconn, hw]
  · simp [Mqtt5Service.publish_rec, hconn, hw]

/-- Closed witness for `ack_without_waiter` at the fixture state, which has
no waiter for ("c", 9). -/
theorem ack_without_waiter_witness :
    Mqtt5Service.publish_ack fxState 1 { pkid := 9 } true = (none, []) ∧
    Mqtt5Service.publish_comp fxState 1 { pkid := 9 } true = (none, []) ∧
    Mqtt5Service.publish_rec fxState 1 { pkid := 9 } true
      = (some (pub_rel 9 PubRelReason.Success), []) :=
  ack_without_waiter fxState 1 9 fxConn true (by decide) (by decide)

/-- C10: For a live connect id, DISCONNECT removes exactly the Connection
entry, the subscribe-cache entries of the client and the heartbeat record;
every other component, in particular the session map and the QoS 2
idempotency entries, is unchanged. -/
theorem disconnect_frame (st : BrokerState) (connect_id : Nat) (conn : Connection)
    (hconn : lookupKey connect_id st.connection_info = some conn) :
    Mqtt5Service.disconnect st connect_id
      = (some (distinct DisconnectReasonCode.NormalDisconnection none),
         { st with
            connection_info := removeKey connect_id st.connection_info,
            subscribe_cache := removeKey conn.client_id st.subscribe_cache,
            heartbeat_data := removeKey connect_id st.heartbeat_data })
    ∧ (Mqtt5Service.disconnect st connect_id).2.session_info = st.session_info
    ∧ (Mqtt5Service.disconnect st connect_id).2.qos_memory = st.qos_memory := by
  refine ⟨?_, ?_, ?_⟩ <;>
    simp [Mqtt5Service.disconnect, hconn, remove_connection,
      subscribe_cache_remove_client, heartbeat_remove_connection]

/-- Closed witness for `disconnect_frame` at the fixture state. -/
theorem disconnect_frame_witness :
    Mqtt5Service.disconnect fxState 1
      = (some (distinct DisconnectReasonCode.NormalDisconnection none),
         { fxState with
            connection_info := removeKey 1 fxState.connection_info,
            subscribe_cache := removeKey "c" fxState.subscribe_cache,
            heartbeat_data := removeKey 1 fxState.heartbeat_data }) :=
  (disconnect_frame fxState 1 fxConn (by decide)).1

/-- The reason code of one filter as the spec words it: the path validator
decides between `TopicFilterInvalid` and the QoS code of
`min(cluster.max_qos, filter.qos)`. -/
def reason_code_of_filter (cluster_qos : QoS) (filter : Filter) : SubscribeReasonCode :=
  if sub_path_validator filter.path then
    match min_qos cluster_qos filter.qos with
    | QoS.AtMostOnce => SubscribeReasonCode.QoS0
    | QoS.AtLeastOnce => SubscribeReasonCode.QoS1
    | QoS.ExactlyOnce => SubscribeReasonCode.QoS2
  else SubscribeReasonCode.TopicFilterInvalid

theorem subscribe_return_codes_eq_map (cq : QoS) (filters : List Filter) :
    subscribe_return_codes cq filters = filters.map (reason_code_of_filter cq) := by
  induction filters with
  | nil => rfl
  | cons f rest ih =>
    by_cases h : sub_path_validator f.path
    · simp [subscribe_return_codes, reason_code_of_filter, h, ih]
    · simp [subscribe_return_codes, reason_code_of_filter, h, ih]

/-- Bound check on one SUBACK reason code: a granted QoS code never exceeds
the cluster maximum QoS (error codes grant nothing). -/
def granted_qos_le (code : SubscribeReasonCode) (cluster_qos : QoS) : Bool :=
  match code with
  | SubscribeReasonCode.QoS1 => decide (1 ≤ qos_to_nat cluster_qos)
  | SubscribeReasonCode.QoS2 => decide (2 ≤ qos_to_nat cluster_qos)
  | _ => true

theorem qos_to_nat_min_le (a b : QoS) : qos_to_nat (min_qos a b) ≤ qos_to_nat a := by
  unfold min_qos
  by_cases h : qos_to_nat a ≤ qos_to_nat b
  · rw [if_pos h]
  · rw [if_neg h]
    omega

theorem granted_code_le (cq : QoS) (f : Filter) :
    granted_qos_le (reason_code_of_filter cq f) cq = true := by
  unfold reason_code_of_filter
  by_cases h : sub_path_validator f.path
  · rw [if_pos h]
    have hle := qos_to_nat_min_le cq f.qos
    cases hm : min_qos cq f.qos with
    | AtMostOnce => simp [granted_qos_le]
    | AtLeastOnce =>
      rw [hm] at hle
      simp only [granted_qos_le, decide_eq_true_eq]
      simpa [qos_to_nat] using hle
    | ExactlyOnce =>
      rw [hm] at hle
      simp only [granted_qos_le, decide_eq_true_eq]
      simpa [qos_to_nat] using hle
  · rw [if_neg h]
    rfl

theorem get_sub_after_save (m : QosMemory) (c : String) (p : Nat) :
    (m.save_sub_pkid_data c p).get_sub_pkid_data c p = some () := by
  unfold QosMemory.save_sub_pkid_data QosMemory.get_sub_pkid_data pkid_set_insert
  by_cases h : (c, p) ∈ m.sub_pkid_data
  · simp [h]
  · simp [h]

/-- C6: For every SUBSCRIBE from a live connection whose pkid is not in
use: when at least one filter is valid and the retained replay succeeds,
the SUBACK carries one reason code per filter in input order, each filter
failing the path validator getting `TopicFilterInvalid` and each valid
filter getting the QoS code of `min(cluster.max_qos, filter.qos)`; every
granted code is at most the cluster maximum QoS; and when every filter is
invalid the reply is SUBACK `[TopicFilterInvalid]` with no state change. -/
theorem subscribe_reason_codes_spec (st : BrokerState) (connect_id : Nat)
    (sub : Subscribe) (props : Option SubscribeProperties) (rok : Bool)
    (conn : Connection)
    (hconn : lookupKey connect_id st.connection_info = some conn)
    (hpkid : (st.qos_memory.get_sub_pkid_data conn.client_id
      sub.packet_identifier).isNone = true) :
    (subscribe_contain_success sub.filters = false →
      Mqtt5Service.subscribe st connect_id sub props rok
        = (sub_ack sub.packet_identifier [SubscribeReasonCode.TopicFilterInvalid], st)) ∧
    (subscribe_contain_success sub.filters = true → rok = true →
      (Mqtt5Service.subscribe st connect_id sub props rok).1
        = sub_ack sub.packet_identifier
            (sub.filters.map (reason_code_of_filter st.cluster.max_qos))) ∧
    (sub.filters.map (reason_code_of_filter st.cluster.max_qos)).length
      = sub.filters.length ∧
    (∀ code ∈ sub.filters.map (reason_code_of_filter st.cluster.max_qos),
      granted_qos_le code st.cluster.max_qos = true) := by
  refine ⟨fun hinv => ?_, fun hcs hrok => ?_, List.length_map _ _, ?_⟩
  · simp [Mqtt5Service.subscribe, hconn, hpkid, hinv]
  · simp [Mqtt5Service.subscribe, hconn, hpkid, hcs, hrok,
      subscribe_return_codes_eq_map]
  · intro code hcode
    obtain ⟨f, _, rfl⟩ := List.mem_map.mp hcode
    exact granted_code_le st.cluster.max_qos f

/-- Mixed-validity SUBSCRIBE fixture of the spec scenarios. -/
def fxMixedSub : Subscribe :=
  { packet_identifier := 8, filters :=
      [{ path := "sensor/+/temp", qos := QoS.ExactlyOnce },
       { path := "bad//#/x", qos := QoS.AtLeastOnce }] }

/-- Closed witness for `subscribe_reason_codes_spec`: at the fixture state
(cluster maximum QoS 1) the mixed SUBSCRIBE is granted `[QoS1,
TopicFilterInvalid]`. -/
theorem subscribe_reason_codes_spec_witness :
    (Mqtt5Service.subscribe fxState 1 fxMixedSub none true).1
      = sub_ack 8 [SubscribeReasonCode.QoS1, SubscribeReasonCode.TopicFilterInvalid] := by
  have h := ((subscribe_reason_codes_spec fxState 1 fxMixedSub none true fxConn
    (by decide) (by decide)).2.1) (by decide) rfl
  exact h.trans (by decide)

/-- Counterexample to C1 as stated: a SUBSCRIBE whose only filter fails the
path validator is answered with SUBACK `[TopicFilterInvalid]` while
`("c", 5)` is never inserted into the subscribe-idempotency set (the state
is returned unchanged, and the set does not hold the pair). -/
theorem subscribe_suback_without_insertion :
    Mqtt5Service.subscribe fxState 1
        { packet_identifier := 5, filters := [{ path := "", qos := QoS.AtLeastOnce }] }
        none true
      = (sub_ack 5 [SubscribeReasonCode.TopicFilterInvalid], fxState)
    ∧ fxState.qos_memory.get_sub_pkid_data "c" 5 = none := by
  exact ⟨by decide, by decide⟩

/-- C1 amended: whenever the subscribe handler replies with a SUBACK and at
least one filter passes the path validator, the pair `(client_id,
packet_identifier)` is in the subscribe-idempotency set of the resulting
state — freshly inserted on the success path, already present on the
`PkidInUse` path.  (When every filter is invalid the source replies SUBACK
`[TopicFilterInvalid]` without inserting.) -/
theorem subscribe_suback_insertion_amended (st : BrokerState) (connect_id : Nat)
    (sub : Subscribe) (props : Option SubscribeProperties) (rok : Bool)
    (conn : Connection) (pkt : MQTTPacket) (st2 : BrokerState)
    (hconn : lookupKey connect_id st.connection_info = some conn)
    (hvalid : subscribe_contain_success sub.filters = true)
    (hrun : Mqtt5Service.subscribe st connect_id sub props rok = (pkt, st2))
    (hsub : is_sub_ack pkt = true) :
    st2.qos_memory.get_sub_pkid_data conn.client_id sub.packet_identifier
      = some () := by
  cases hdup : (st.qos_memory.get_sub_pkid_data conn.client_id
      sub.packet_identifier).isNone with
  | false =>
    simp [Mqtt5Service.subscribe, hconn, hdup] at hrun
    obtain ⟨hpkt, hst⟩ := hrun
    subst hst
    cases hget : st.qos_memory.get_sub_pkid_data conn.client_id
        sub.packet_identifier with
    | none => rw [hget] at hdup; simp at hdup
    | some u => cases u; rfl
  | true =>
    cases rok with
    | false =>
      simp [Mqtt5Service.subscribe, hconn, hdup, hvalid] at hrun
      obtain ⟨hpkt, hst⟩ := hrun
      rw [← hpkt] at hsub
      simp [is_sub_ack, distinct] at hsub
    | true =>
      simp [Mqtt5Service.subscribe, hconn, hdup, hvalid] at hrun
      obtain ⟨hpkt, hst⟩ := hrun
      subst hst
      simp [subscribe_cache_add, add_client_subscribe]
      exact get_sub_after_save st.qos_memory conn.client_id sub.packet_identifier

/-- Closed witness for `subscribe_suback_insertion_amended`: at the fixture
state the valid SUBSCRIBE with pkid 7 replies SUBACK and the pair
`("c", 7)` is present afterwards. -/
theorem subscribe_suback_insertion_amended_witness :
    (Mqtt5Service.subscribe fxState 1 fxSub none true).2.qos_memory.get_sub_pkid_data
      "c" 7 = some () :=
  subscribe_suback_insertion_amended fxState 1 fxSub none true fxConn
    (Mqtt5Service.subscribe fxState 1 fxSub none true).1
    (Mqtt5Service.subscribe fxState 1 fxSub none true).2
    (by decide) (by decide) rfl (by decide)

theorem publish_retain_step_ok (st : BrokerState) (p : Publish)
    (props : Option PublishProperties) (topic : Topic) (cid : String)
    (rok : Bool) (st1 : BrokerState)
    (h : publish_retain_step st p props topic cid rok = Except.ok st1) :
    st1.qos_memory = st.qos_memory
    ∧ st1.connection_info = st.connection_info
    ∧ (p.retain = true → rok = true ∧ st1.retain_messages
        = insertKey topic.topic_id (MQTTMessage.build_message cid p props)
            st.retain_messages)
    ∧ (p.retain = false → st1 = st) := by
  unfold publish_retain_step save_retain_message at h
  cases hr : p.retain with
  | false =>
    rw [hr] at h
    simp at h
    subst h
    exact ⟨rfl, rfl, fun hc => by simp at hc, fun _ => rfl⟩
  | true =>
    rw [hr] at h
    cases rok with
    | false => simp at h
    | true =>
      simp at h
      subst h
      exact ⟨rfl, rfl, fun _ => ⟨rfl, rfl⟩, fun hc => by simp at hc⟩

theorem publish_append_step_ok (st : BrokerState) (p : Publish)
    (props : Option PublishProperties) (topic : Topic) (cid : String)
    (aok : Bool) (offset : String) (st2 : BrokerState)
    (h : publish_append_step st p props topic cid aok = Except.ok (offset, st2)) :
    st2.qos_memory = st.qos_memory
    ∧ st2.retain_messages = st.retain_messages
    ∧ st2.connection_info = st.connection_info
    ∧ (p.payload.length ≠ 0 → aok = true) := by
  unfold publish_append_step MQTTMessage.build_record append_topic_message at h
  by_cases hlen : p.payload.length = 0
  · rw [if_pos hlen] at h
    simp at h
    obtain ⟨hoff, hst⟩ := h
    subst hst
    exact ⟨rfl, rfl, rfl, fun hne => absurd hlen hne⟩
  · rw [if_neg hlen] at h
    cases aok with
    | false => simp at h
    | true =>
      simp at h
      obtain ⟨hoff, hst⟩ := h
      subst hst
      exact ⟨rfl, rfl, rfl, fun _ => rfl⟩

/-- C7: For every PUBLISH from a live connection (with the topic resolved),
a payload that is empty or longer than the maximum packet size of the
connection is answered with PUBACK `PayloadFormatInvalid` and the state —
in particular both stores — is unchanged; and when the payload policy
holds, no reply of the handler carries `PayloadFormatInvalid`. -/
theorem publish_payload_policy (st : BrokerState) (connect_id : Nat) (p : Publish)
    (props : Option PublishProperties) (tname : String) (topic : Topic)
    (rok aok : Bool) (conn : Connection)
    (hconn : lookupKey connect_id st.connection_info = some conn) :
    (p.payload.length = 0 ∨ p.payload.length > conn.max_packet_size →
      Mqtt5Service.publish st connect_id p props (Except.ok tname) (Except.ok topic)
          rok aok
        = (some (pub_ack_fail PubAckReason.PayloadFormatInvalid
            (some (packet_length_error_msg p.payload.length))), st)) ∧
    (¬(p.payload.length = 0 ∨ p.payload.length > conn.max_packet_size) →
      ∀ msg, (Mqtt5Service.publish st connect_id p props (Except.ok tname)
          (Except.ok topic) rok aok).1
        ≠ some (pub_ack_fail PubAckReason.PayloadFormatInvalid msg)) := by
  constructor
  · intro hbad
    simp only [Mqtt5Service.publish, hconn]
    rw [if_pos hbad]
  · intro hgood msg
    simp only [Mqtt5Service.publish, hconn]
    rw [if_neg hgood]
    cases hdup : (st.qos_memory.get_qos_pkid_data conn.client_id p.pkid).isNone with
    | false => simp [pub_ack_fail]
    | true =>
      simp only [Bool.not_true, Bool.false_eq_true, if_false]
      cases hrs : publish_retain_step st p props topic conn.client_id rok with
      | error e => simp [hrs, distinct, pub_ack_fail]
      | ok st1 =>
        simp only [hrs]
        cases has : publish_append_step st1 p props topic conn.client_id aok with
        | error e => simp [has, distinct, pub_ack_fail]
        | ok pr =>
          obtain ⟨offset, st2⟩ := pr
          simp only [has]
          cases hq : p.qos with
          | AtMostOnce => simp
          | AtLeastOnce => simp [pub_ack, pub_ack_fail]
          | ExactlyOnce => simp [pub_rec, pub_ack_fail]

/-- Closed witness for `publish_payload_policy`: at the fixture state an
empty-payload PUBLISH is rejected with `PayloadFormatInvalid` unchanged
state. -/
theorem publish_payload_policy_witness :
    Mqtt5Service.publish fxState 1
        { dup := false, qos := QoS.AtLeastOnce, pkid := 3, retain := false,
          topic := "t", payload := [] }
        none (Except.ok "t") (Except.ok fxTopic) true true
      = (some (pub_ack_fail PubAckReason.PayloadFormatInvalid
          (some (packet_length_error_msg 0))), fxState) :=
  (publish_payload_policy fxState 1
    { dup := false, qos := QoS.AtLeastOnce, pkid := 3, retain := false,
      topic := "t", payload := [] }
    none "t" fxTopic true true fxConn (by decide)).1 (Or.inl (by decide))

/-- Counterexample to C3 as stated: the duplicate-pkid check runs before
the QoS match, so a QoS 1 PUBLISH whose `(client_id, pkid)` is in the QoS
idempotency set is also rejected with `PacketIdentifierInUse`, where the
claim says QoS 0/1 publishes are not rejected on a present pkid. -/
theorem publish_qos1_duplicate_rejected :
    Mqtt5Service.publish fxState 1
        { dup := false, qos := QoS.AtLeastOnce, pkid := 9, retain := false,
          topic := "t", payload := [104, 105] }
        none (Except.ok "t") (Except.ok fxTopic) true true
      = (some (pub_ack_fail PubAckReason.PacketIdentifierInUse none), fxState) := by
  decide

/-- C3 amended: for a PUBLISH from a live connection passing the payload
policy, a present `(client_id, pkid)` in the QoS idempotency set is
answered with PUBACK `PacketIdentifierInUse` regardless of the QoS level;
and a PUBLISH whose QoS is not 2 never inserts into that set, so QoS 0/1
duplicates are never created by the handler itself. -/
theorem publish_pkid_in_use_any_qos (st : BrokerState) (connect_id : Nat)
    (p : Publish) (props : Option PublishProperties) (tname : String)
    (topic : Topic) (rok aok : Bool) (conn : Connection)
    (hconn : lookupKey connect_id st.connection_info = some conn)
    (hgood : ¬(p.payload.length = 0 ∨ p.payload.length > conn.max_packet_size)) :
    ((st.qos_memory.get_qos_pkid_data conn.client_id p.pkid).isNone = false →
      Mqtt5Service.publish st connect_id p props (Except.ok tname) (Except.ok topic)
          rok aok
        = (some (pub_ack_fail PubAckReason.PacketIdentifierInUse none), st)) ∧
    (p.qos ≠ QoS.ExactlyOnce →
      (Mqtt5Service.publish st connect_id p props (Except.ok tname) (Except.ok topic)
          rok aok).2.qos_memory.qos_pkid_data
        = st.qos_memory.qos_pkid_data) := by
  constructor
  · intro hdup
    simp only [Mqtt5Service.publish, hconn]
    rw [if_neg hgood]
    simp [hdup]
  · intro hq
    cases hdup : (st.qos_memory.get_qos_pkid_data conn.client_id p.pkid).isNone with
    | false =>
      simp only [Mqtt5Service.publish, hconn]
      rw [if_neg hgood]
      simp [hdup]
    | true =>
      cases hrs : publish_retain_step st p props topic conn.client_id rok with
      | error e =>
        simp only [Mqtt5Service.publish, hconn]
        rw [if_neg hgood]
        simp [hdup, hrs]
      | ok st1 =>
        obtain ⟨hqm1, _, _, _⟩ := publish_retain_step_ok _ _ _ _ _ _ _ hrs
        cases has : publish_append_step st1 p props topic conn.client_id aok with
        | error e =>
          simp only [Mqtt5Service.publish, hconn]
          rw [if_neg hgood]
          simp [hdup, hrs, has, hqm1]
        | ok pr =>
          obtain ⟨offset, st2⟩ := pr
          obtain ⟨hqm2, _, _, _⟩ := publish_append_step_ok _ _ _ _ _ _ _ _ has
          cases hqos : p.qos with
          | AtMostOnce =>
            simp only [Mqtt5Service.publish, hconn]
            rw [if_neg hgood]
            simp [hdup, hrs, has, hqos, hqm2, hqm1]
          | AtLeastOnce =>
            simp only [Mqtt5Service.publish, hconn]
            rw [if_neg hgood]
            simp [hdup, hrs, has, hqos, hqm2, hqm1]
          | ExactlyOnce => exact absurd hqos hq

/-- Closed witness for `publish_pkid_in_use_any_qos`: the true half of the
original claim, a duplicate QoS 2 PUBLISH is rejected with
`PacketIdentifierInUse`. -/
theorem publish_pkid_in_use_any_qos_witness :
    Mqtt5Service.publish fxState 1
        { dup := false, qos := QoS.ExactlyOnce, pkid := 9, retain := false,
          topic := "t", payload := [104] }
        none (Except.ok "t") (Except.ok fxTopic) true true
      = (some (pub_ack_fail PubAckReason.PacketIdentifierInUse none), fxState) :=
  (publish_pkid_in_use_any_qos fxState 1
    { dup := false, qos := QoS.ExactlyOnce, pkid := 9, retain := false,
      topic := "t", payload := [104] }
    none "t" fxTopic true true fxConn (by decide) (by decide)).1 (by decide)

/-- Counterexample to C5 as stated: a retain PUBLISH with empty payload is
rejected by the payload policy before the retain block runs, so the
retained entry of the topic is not deleted — the old message survives and
the reply is PUBACK `PayloadFormatInvalid`. -/
theorem publish_retain_empty_payload_no_delete :
    Mqtt5Service.publish fxState 1
        { dup := false, qos := QoS.AtLeastOnce, pkid := 2, retain := true,
          topic := "t", payload := [] }
        none (Except.ok "t") (Except.ok fxTopic) true true
      = (some (pub_ack_fail PubAckReason.PayloadFormatInvalid
          (some (packet_length_error_msg 0))), fxState)
    ∧ lookupKey "tid" fxState.retain_messages = some fxMessage := by
  exact ⟨by decide, by decide⟩

/-- The state after a successful retain save: the built message upserted
under the topic id. -/
def retain_saved_state (st : BrokerState) (topic : Topic) (cid : String)
    (p : Publish) (props : Option PublishProperties) : BrokerState :=
  let m := MQTTMessage.build_message cid p props
  { st with retain_messages := insertKey topic.topic_id m st.retain_messages }

/-- C5 amended: a retain PUBLISH with empty payload is answered with PUBACK
`PayloadFormatInvalid` and changes nothing (no delete of the retained
entry); a retain PUBLISH with non-empty payload within the packet-size
bound, fresh pkid and a successful retain save stores the built message as
the latest retained message of the topic. -/
theorem publish_retain_behaviour (st : BrokerState) (connect_id : Nat)
    (p : Publish) (props : Option PublishProperties) (tname : String)
    (topic : Topic) (rok aok : Bool) (conn : Connection)
    (hconn : lookupKey connect_id st.connection_info = some conn)
    (hretain : p.retain = true) :
    (p.payload.length = 0 →
      Mqtt5Service.publish st connect_id p props (Except.ok tname) (Except.ok topic)
          rok aok
        = (some (pub_ack_fail PubAckReason.PayloadFormatInvalid
            (some (packet_length_error_msg p.payload.length))), st)) ∧
    (p.payload.length ≠ 0 → p.payload.length ≤ conn.max_packet_size →
      (st.qos_memory.get_qos_pkid_data conn.client_id p.pkid).isNone = true →
      rok = true →
      lookupKey topic.topic_id
        (Mqtt5Service.publish st connect_id p props (Except.ok tname) (Except.ok topic)
            rok aok).2.retain_messages
        = some (MQTTMessage.build_message conn.client_id p props)) := by
  constructor
  · intro hzero
    simp only [Mqtt5Service.publish, hconn]
    rw [if_pos (Or.inl hzero)]
  · intro hne hle hdup hrok
    have hgood : ¬(p.payload.length = 0 ∨ p.payload.length > conn.max_packet_size) := by
      push_neg
      exact ⟨hne, hle⟩
    have hrs : publish_retain_step st p props topic conn.client_id rok
        = Except.ok (retain_saved_state st topic conn.client_id p props) := by
      unfold publish_retain_step save_retain_message retain_saved_state
      rw [hretain, hrok]
      simp
    cases has : publish_append_step (retain_saved_state st topic conn.client_id p props)
        p props topic conn.client_id aok with
    | error e =>
      simp only [Mqtt5Service.publish, hconn]
      rw [if_neg hgood]
      simp [hdup, hrs, has]
      simp [retain_saved_state, lookupKey_insertKey_self]
    | ok pr =>
      obtain ⟨offset, st2⟩ := pr
      obtain ⟨_, hr2, _, _⟩ := publish_append_step_ok _ _ _ _ _ _ _ _ has
      cases hqos : p.qos with
      | AtMostOnce =>
        simp only [Mqtt5Service.publish, hconn]
        rw [if_neg hgood]
        simp [hdup, hrs, has, hqos]
        simp [hr2, retain_saved_state, lookupKey_insertKey_self]
      | AtLeastOnce =>
        simp only [Mqtt5Service.publish, hconn]
        rw [if_neg hgood]
        simp [hdup, hrs, has, hqos]
        simp [hr2, retain_saved_state, lookupKey_insertKey_self]
      | ExactlyOnce =>
        simp only [Mqtt5Service.publish, hconn]
        rw [if_neg hgood]
        simp [hdup, hrs, has, hqos]
        simp [hr2, retain_saved_state, lookupKey_insertKey_self]

/-- Closed witness for `publish_retain_behaviour`: a retain PUBLISH with
payload [104] stores the built message as the retained message of "tid". -/
theorem publish_retain_behaviour_witness :
    lookupKey "tid"
      (Mqtt5Service.publish fxState 1
        { dup := false, qos := QoS.AtLeastOnce, pkid := 3, retain := true,
          topic := "t", payload := [104] }
        none (Except.ok "t") (Except.ok fxTopic) true true).2.retain_messages
      = some (MQTTMessage.build_message "c"
          { dup := false, qos := QoS.AtLeastOnce, pkid := 3, retain := true,
            topic := "t", payload := [104] } none) :=
  (publish_retain_behaviour fxState 1
    { dup := false, qos := QoS.AtLeastOnce, pkid := 3, retain := true,
      topic := "t", payload := [104] }
    none "t" fxTopic true true fxConn (by decide) (by decide)).2
    (by decide) (by decide) (by decide) rfl

/-- C9: Every error reply of the publish handler (a failing PUBACK or a
DISCONNECT) leaves the publish QoS idempotency set unchanged; and whenever
the set does change, the packet was QoS 2, the retain save (when the retain
flag was set) and the log append both succeeded, and the change is exactly
the insertion of `(client_id, pkid)` for the looked-up connection. -/
theorem publish_qos_table_frame (st : BrokerState) (connect_id : Nat) (p : Publish)
    (props : Option PublishProperties) (tn : Except String String)
    (ti : Except String Topic) (rok aok : Bool) :
    (is_error_reply (Mqtt5Service.publish st connect_id p props tn ti rok aok).1 = true →
      (Mqtt5Service.publish st connect_id p props tn ti rok aok).2.qos_memory.qos_pkid_data
        = st.qos_memory.qos_pkid_data) ∧
    ((Mqtt5Service.publish st connect_id p props tn ti rok aok).2.qos_memory.qos_pkid_data
        ≠ st.qos_memory.qos_pkid_data →
      p.qos = QoS.ExactlyOnce
      ∧ (p.retain = true → rok = true)
      ∧ aok = true
      ∧ ∃ conn, lookupKey connect_id st.connection_info = some conn
          ∧ (Mqtt5Service.publish st connect_id p props tn ti rok aok).2.qos_memory.qos_pkid_data
            = pkid_set_insert st.qos_memory.qos_pkid_data conn.client_id p.pkid) := by
  cases tn with
  | error e =>
    constructor
    · intro _
      simp [Mqtt5Service.publish]
    · intro h
      exact absurd (by simp [Mqtt5Service.publish]) h
  | ok tname =>
  cases ti with
  | error e =>
    constructor
    · intro _
      simp [Mqtt5Service.publish]
    · intro h
      exact absurd (by simp [Mqtt5Service.publish]) h
  | ok topic =>
  cases hc : lookupKey connect_id st.connection_info with
  | none =>
    constructor
    · intro _
      simp [Mqtt5Service.publish, hc]
    · intro h
      exact absurd (by simp [Mqtt5Service.publish, hc]) h
  | some connection =>
  by_cases hlen : p.payload.length = 0 ∨ p.payload.length > connection.max_packet_size
  · constructor
    · intro _
      simp only [Mqtt5Service.publish, hc]
      rw [if_pos hlen]
    · intro h
      refine absurd ?_ h
      simp only [Mqtt5Service.publish, hc]
      rw [if_pos hlen]
  · cases hdup : (st.qos_memory.get_qos_pkid_data connection.client_id p.pkid).isNone with
    | false =>
      constructor
      · intro _
        simp only [Mqtt5Service.publish, hc]
        rw [if_neg hlen]
        simp [hdup]
      · intro h
        refine absurd ?_ h
        simp only [Mqtt5Service.publish, hc]
        rw [if_neg hlen]
        simp [hdup]
    | true =>
      cases hrs : publish_retain_step st p props topic connection.client_id rok with
      | error e =>
        constructor
        · intro _
          simp only [Mqtt5Service.publish, hc]
          rw [if_neg hlen]
          simp [hdup, hrs]
        · intro h
          refine absurd ?_ h
          simp only [Mqtt5Service.publish, hc]
          rw [if_neg hlen]
          simp [hdup, hrs]
      | ok st1 =>
        obtain ⟨hqm1, _, hret1, _⟩ := publish_retain_step_ok _ _ _ _ _ _ _ hrs
        cases has : publish_append_step st1 p props topic connection.client_id aok with
        | error e =>
          constructor
          · intro _
            simp only [Mqtt5Service.publish, hc]
            rw [if_neg hlen]
            simp [hdup, hrs, has, hqm1]
          · intro h
            refine absurd ?_ h
            simp only [Mqtt5Service.publish, hc]
            rw [if_neg hlen]
            simp [hdup, hrs, has, hqm1]
        | ok pr =>
          obtain ⟨offset, st2⟩ := pr
          obtain ⟨hqm2, _, _, haok⟩ := publish_append_step_ok _ _ _ _ _ _ _ _ has
          have hlen0 : p.payload.length ≠ 0 := fun h0 => hlen (Or.inl h0)
          cases hqos : p.qos with
          | AtMostOnce =>
            constructor
            · intro habs
              exfalso
              revert habs
              simp only [Mqtt5Service.publish, hc]
              rw [if_neg hlen]
              simp [hdup, hrs, has, hqos, is_error_reply]
            · intro h
              refine absurd ?_ h
              simp only [Mqtt5Service.publish, hc]
              rw [if_neg hlen]
              simp [hdup, hrs, has, hqos, hqm2, hqm1]
          | AtLeastOnce =>
            constructor
            · intro habs
              exfalso
              revert habs
              simp only [Mqtt5Service.publish, hc]
              rw [if_neg hlen]
              simp [hdup, hrs, has, hqos, is_error_reply, pub_ack]
            · intro h
              refine absurd ?_ h
              simp only [Mqtt5Service.publish, hc]
              rw [if_neg hlen]
              simp [hdup, hrs, has, hqos, hqm2, hqm1]
          | ExactlyOnce =>
            constructor
            · intro habs
              exfalso
              revert habs
              simp only [Mqtt5Service.publish, hc]
              rw [if_neg hlen]
              simp [hdup, hrs, has, hqos, is_error_reply, pub_rec]
            · intro _
              refine ⟨rfl, fun hr => (hret1 hr).1, haok hlen0, ⟨connection, rfl, ?_⟩⟩
              simp only [Mqtt5Service.publish, hc]
              rw [if_neg hlen]
              simp [hdup, hrs, has, hqos, QosMemory.save_qos_pkid_data, hqm2, hqm1]

/-- Closed witness for `publish_qos_table_frame`: a topic-resolution error
replies a failing PUBACK and leaves the QoS set unchanged. -/
theorem publish_qos_table_frame_witness :
    (Mqtt5Service.publish fxState 1
      { dup := false, qos := QoS.AtLeastOnce, pkid := 7, retain := false,
        topic := "t", payload := [104, 105] }
      none (Except.error "boom") (Except.ok fxTopic) true
      true).2.qos_memory.qos_pkid_data
      = fxState.qos_memory.qos_pkid_data :=
  (publish_qos_table_frame fxState 1
    { dup := false, qos := QoS.AtLeastOnce, pkid := 7, retain := false,
      topic := "t", payload := [104, 105] }
    none (Except.error "boom") (Except.ok fxTopic) true true).1 (by decide)

/-- Empty broker state used for the CONNECT experiments. -/
def fxEmptyState : BrokerState :=
  { cluster := fxCluster
    session_info := []
    connection_info := []
    heartbeat_data := []
    qos_memory := { qos_pkid_data := [], sub_pkid_data := [] }
    client_subscribe := []
    subscribe_cache := []
    retain_messages := []
    message_log := []
    ack_waiters := [] }

/-- CONNECT packet of client "c". -/
def fxConnect : Connect := { client_id := "c", clean_start := true, keep_alive := 60 }

/-- Session built for client "c". -/
def fxSession : Session := { client_id := "c", session_expiry := 100 }

/-- State after a first successful CONNECT of client "c" on connect id 1. -/
def fxAfterFirstConnect : BrokerState :=
  (Mqtt5Service.connect fxEmptyState 1 fxConnect (Except.ok true) "f"
    (Except.ok (fxSession, true)) 1000).2

/-- State after a second successful CONNECT of the same client "c" on the
fresh connect id 2. -/
def fxAfterSecondConnect : BrokerState :=
  (Mqtt5Service.connect fxAfterFirstConnect 2 fxConnect (Except.ok true) "f"
    (Except.ok (fxSession, false)) 1001).2

/-- C2 fails on the code: after a second successful CONNECT of client "c",
the stale Connection of connect id 1 is still in the cache with the same
client id, a second Connection for the same client exists under connect id
2, and the heartbeat record of the stale connection is still present — the
handler performs no eviction and no heartbeat removal. -/
theorem connect_keeps_stale_connection :
    (lookupKey 1 fxAfterSecondConnect.connection_info).map Connection.client_id
      = some "c"
    ∧ (lookupKey 2 fxAfterSecondConnect.connection_info).map Connection.client_id
      = some "c"
    ∧ lookupKey 1 fxAfterSecondConnect.heartbeat_data
      = some { protobol := MQTTProtocol.MQTT5, keep_live := 60, heartbeat := 1000 } := by
  exact ⟨by decide, by decide, by decide⟩

end RobustMQ
